import Mathlib

/-!
Verification of the plugin-registry / event-bus core of the page-assist
repository.

Shallow embedding of:
- `packages/event-bus/src/index.ts` (class `EventBus`): `on`, `off`, `emit`,
  `once`, `listenerCount`.
- the `PluginManager` class (plugin-system module): `registerPlugin`,
  `unregisterPlugin`, `getPlugin`, `getPluginAPI`, `getPluginSettings`,
  `updatePluginSettings` and the private storage helpers.

Modelling conventions:
- JS `Map<string, _>` becomes an association list `List (String × _)` with
  unique keys in practice; lookup finds the first matching key, `set`
  replaces in place (as `Map.set` does), `delete` removes the key.
- JS `Set<EventHandler>` (identity-deduplicated, insertion-ordered) becomes
  a `List HandlerId` without duplicates; handler identity is a numeric id
  and an environment maps ids to behaviours.
- A handler invocation's observable behaviour is: possible bus mutations
  performed synchronously while it runs (subscribing/unsubscribing), and an
  outcome: normal return, synchronous throw, or rejection of the returned
  promise. `emit` wraps each call in try/catch (catching only the
  synchronous throw) and then awaits `Promise.all`, which rejects iff some
  handler's promise rejected.
- Console logging and the debug flag have no delivery semantics and are not
  modelled.
-/

namespace PageAssist

/-- Lookup in an association list with string keys (first match), as
`Map.prototype.get`. -/
def lookupA {β : Type} : List (String × β) → String → Option β
| [], _ => none
| (k, v) :: rest, key => if k = key then some v else lookupA rest key

/-- Replace the value stored under `key` in place if present, else append,
as `Map.prototype.set`. -/
def setA {β : Type} (m : List (String × β)) (key : String) (v : β) :
    List (String × β) :=
if m.any (fun e => e.1 = key) then
  m.map (fun e => if e.1 = key then (key, v) else e)
else
  m ++ [(key, v)]

/-- Remove every entry stored under `key`, as `Map.prototype.delete`
(keys are unique in practice). -/
def delA {β : Type} (m : List (String × β)) (key : String) :
    List (String × β) :=
m.filter (fun e => e.1 ≠ key)

/-! ### Event bus state -/

/-- A subscriber is identified by a numeric id (function identity in JS). -/
abbrev HandlerId := Nat

/-- A channel name (`event` string in the source). -/
abbrev Channel := String

/-- The private `listeners: Map<string, Set<EventHandler>>` field of
`EventBus`: channel name to insertion-ordered, deduplicated subscriber
list. -/
abbrev Listeners := List (Channel × List HandlerId)

/-- The bus with no listeners (a freshly constructed `EventBus`). -/
def busEmpty : Listeners := []

/-- Outcome of one handler invocation as `emit` observes it:
`ok` (the returned promise resolves), `syncThrow` (the call threw before
returning a promise), `asyncReject` (the returned promise rejects). -/
inductive HOutcome : Type where
| ok : HOutcome
| syncThrow : HOutcome
| asyncReject : HOutcome
deriving DecidableEq, Repr

/-- A synchronous bus mutation a handler may perform while it runs. -/
inductive BusAct : Type where
| sub : Channel → HandlerId → BusAct
| unsub : Channel → HandlerId → BusAct
deriving DecidableEq, Repr

/-- Behaviour attached to a handler id.

* `plain f`: a handler with no bus side effects; `f` gives the outcome for
  each payload.
* `onceWrap ev self inner`: the `wrappedHandler` closure built by
  `EventBus.once(ev, inner)`; `self` is the wrapper's own id (the closure
  refers to itself for `this.off(event, wrappedHandler)`), `inner` the
  outcome of the user handler. The wrapper is an `async` function: it
  awaits `inner`, and only on success calls `off ev self`; any failure of
  `inner` (synchronous or not) rejects the wrapper's promise and skips the
  unsubscribe.
* `mutator acts f`: a handler that synchronously performs bus operations
  `acts p` while running, then finishes with outcome `f p`. -/
inductive HandlerKind (α : Type) : Type where
| plain : (α → HOutcome) → HandlerKind α
| onceWrap : Channel → HandlerId → (α → HOutcome) → HandlerKind α
| mutator : (α → List BusAct) → (α → HOutcome) → HandlerKind α

/-- Assignment of behaviours to handler ids. -/
abbrev HandlerEnv (α : Type) := HandlerId → HandlerKind α

/-! ### Event bus operations (from `EventBus`) -/

/-- `EventBus.on(event, handler)`: create the channel's set if absent, then
`Set.add` the handler — a no-op if the identical handler is already
subscribed. (The returned subscription handle just closes over `off`.) -/
def onEv (st : Listeners) (ev : Channel) (h : HandlerId) : Listeners :=
match lookupA st ev with
| none => setA st ev [h]
| some l => if h ∈ l then st else setA st ev (l ++ [h])

/-- `EventBus.off(event, handler)`: delete the handler from the channel's
set; if the set becomes empty the channel entry is dropped. -/
def off (st : Listeners) (ev : Channel) (h : HandlerId) : Listeners :=
match lookupA st ev with
| none => st
| some l =>
  let l' := l.erase h
  if l'.isEmpty then delA st ev else setA st ev l'

/-- `EventBus.once(event, handler)`: subscribes the wrapping closure
(whose behaviour must be `HandlerKind.onceWrap ev w inner` in the
environment) via `this.on`. -/
def once (st : Listeners) (ev : Channel) (w : HandlerId) : Listeners :=
onEv st ev w

/-- `EventBus.listenerCount(event)`: `listeners.get(event)?.size || 0`. -/
def listenerCount (st : Listeners) (ev : Channel) : Nat :=
match lookupA st ev with
| none => 0
| some l => l.length

/-- Apply one synchronous bus mutation. -/
def applyAct (st : Listeners) : BusAct → Listeners
| BusAct.sub c h => onEv st c h
| BusAct.unsub c h => off st c h

/-- Run one handler invocation: the resulting bus state (the handler's own
synchronous mutations applied) and the outcome `emit` observes. Mirrors
`Promise.resolve(handler(data))` for the three behaviour kinds. -/
def invoke {α : Type} (env : HandlerEnv α) (st : Listeners)
    (hid : HandlerId) (p : α) : Listeners × HOutcome :=
match env hid with
| HandlerKind.plain f => (st, f p)
| HandlerKind.onceWrap ev self inner =>
  match inner p with
  | HOutcome.ok => (off st ev self, HOutcome.ok)
  | _ => (st, HOutcome.asyncReject)
| HandlerKind.mutator acts f => ((acts p).foldl applyAct st, f p)

/-- The outcome of a handler invocation (it never depends on the bus
state). -/
def outcomeOf {α : Type} (env : HandlerEnv α) (hid : HandlerId) (p : α) :
    HOutcome :=
match env hid with
| HandlerKind.plain f => f p
| HandlerKind.onceWrap _ _ inner =>
  match inner p with
  | HOutcome.ok => HOutcome.ok
  | _ => HOutcome.asyncReject
| HandlerKind.mutator _ f => f p

/-- Whether an outcome makes `Promise.all` reject: only an asynchronous
rejection does — a synchronous throw is caught by the per-handler
try/catch in `emit` and replaced by a resolved promise. -/
def isReject : HOutcome → Bool
| HOutcome.asyncReject => true
| _ => false

/-- The body of `emit`'s `Array.from(handlers).map(...)` loop followed by
`await Promise.all`: invoke every handler of the snapshot in order on the
evolving bus state; return the final state, whether the aggregate promise
rejects, and the invocation log (which handler was called with which
payload). -/
def runHandlers {α : Type} (env : HandlerEnv α) (p : α) :
    List HandlerId → Listeners → Listeners × Bool × List (HandlerId × α)
| [], st => (st, false, [])
| h :: hs, st =>
  let step := invoke env st h p
  let rest := runHandlers env p hs step.1
  (rest.1, isReject step.2 || rest.2.1, (h, p) :: rest.2.2)

/-- Result of one `emit` call: final bus state, whether the returned
promise rejects, and the ordered invocation log. -/
structure EmitResult (α : Type) : Type where
  state : Listeners
  rejected : Bool
  log : List (HandlerId × α)

/-- `EventBus.emit(event, data)`: no-op on a missing or empty channel;
otherwise snapshot the subscriber set (`Array.from(handlers)`) and invoke
each snapshot member once with the payload. -/
def emit {α : Type} (env : HandlerEnv α) (st : Listeners) (ev : Channel)
    (p : α) : EmitResult α :=
match lookupA st ev with
| none => ⟨st, false, []⟩
| some l =>
  if l.isEmpty then ⟨st, false, []⟩
  else
    let r := runHandlers env p l st
    ⟨r.1, r.2.1, r.2.2⟩

/-- The subscriber snapshot `emit` iterates for a channel. -/
def snapshot (st : Listeners) (ev : Channel) : List HandlerId :=
match lookupA st ev with
| none => []
| some l => l

/-- Number of invocations of handler `h` recorded in a log. -/
def countFst {α : Type} (h : HandlerId) (log : List (HandlerId × α)) : Nat :=
(log.filter (fun e => e.1 = h)).length

/-- Bus well-formedness: every channel's subscriber list is duplicate-free
(it models a JS `Set`). Established by construction: `on` deduplicates. -/
def WF (st : Listeners) : Prop :=
∀ c l, lookupA st c = some l → l.Nodup

/-! ### Plugin system data model (from the plugin-system module)

The registry is generic over the type `V` of setting / storage values
(arbitrary JS values in the source). -/

/-- A value held in a plugin's storage namespace: either a plain value or
an object — `updatePluginSettings` stores the settings override object
under the reserved key. -/
inductive StorageVal (V : Type) : Type where
| val : V → StorageVal V
| obj : List (String × V) → StorageVal V
deriving DecidableEq

/-- `PluginSettings` from the manifest; only `defaults` (the part the
manager's logic reads) is modelled, the declarative `schema` is opaque to
the core. -/
structure PluginSettings (V : Type) : Type where
  defaults : List (String × V)
deriving DecidableEq

/-- `PluginAPIMethod`: a described handler function; the function itself is
opaque to the manager (it is only stored and delegated to), so it is
modelled as a numeric tag. -/
structure APIMethod : Type where
  description : String
  handler : Nat
deriving DecidableEq

/-- `PluginManifest`, restricted to the fields the `PluginManager` logic
reads (`id`, `name`, `version`, `api`, `settings`, `dependencies`,
`optionalDependencies`, `subscribesTo`); the purely declarative fields
(`panels`, `menuItems`, `events`, `permissions`, metadata) are opaque to
the operations verified here. Optional manifest fields are `Option`s. -/
structure PluginManifest (V : Type) : Type where
  id : String
  name : String
  version : String
  api : Option (List (String × APIMethod))
  settings : Option (PluginSettings V)
  dependencies : Option (List String)
  optionalDependencies : Option (List String)
  subscribesTo : Option (List String)
deriving DecidableEq

/-- Outcome of a lifecycle callback (`initialize` / `cleanup`) when the
manager awaits it: it either returns normally or throws/rejects. -/
inductive LifecycleOutcome : Type where
| ok : LifecycleOutcome
| throws : LifecycleOutcome
deriving DecidableEq

/-- The `Plugin` value fed to `registerPlugin`: a manifest plus optional
lifecycle callbacks. `init` models the optional `initialize` callback and
`cleanup` the optional `cleanup` callback, each reduced to its awaited
outcome (`none` = callback not defined). The `context` field is written by
the manager and never read by the verified operations; `activate` /
`deactivate` are unused by them. -/
structure Plugin (V : Type) : Type where
  manifest : PluginManifest V
  init : Option LifecycleOutcome
  cleanup : Option LifecycleOutcome
deriving DecidableEq

/-- Events the manager emits on its bus, with their payloads
(`plugin.loaded`, `plugin.unloaded`, `settings.changed`). -/
inductive MgrEvent (V : Type) : Type where
| pluginLoaded : String → String → MgrEvent V
| pluginUnloaded : String → MgrEvent V
| settingsChanged : String → List (String × V) → MgrEvent V
deriving DecidableEq

/-- Errors thrown by `PluginManager` methods. In the source these are
`Error` values with fixed message shapes; the spec's taxonomy names them
`DuplicatePlugin` (id already registered), `MissingDependency` (carrying
the registering id and the missing dependency id, both of which appear in
the message) and `LifecycleError` (an `initialize`/`cleanup` callback
threw, propagated uncaught). -/
inductive PMError : Type where
| duplicatePlugin : String → PMError
| missingDependency : String → String → PMError
| lifecycleError : PMError
deriving DecidableEq

/-- State of a `PluginManager` instance: the `plugins` map, the `storage`
map of per-plugin namespaces, plus two observation logs — the events the
manager emitted on its bus and the plugin ids whose `cleanup` callback was
invoked (ghost fields recording calls the source makes, with no effect on
its control flow). -/
structure ManagerState (V : Type) : Type where
  plugins : List (String × Plugin V)
  storage : List (String × List (String × StorageVal V))
  emitted : List (MgrEvent V)
  cleanupsRun : List String
deriving DecidableEq

/-- A freshly constructed `PluginManager`. -/
def emptyMgr (V : Type) : ManagerState V := ⟨[], [], [], []⟩

/-! ### Plugin manager operations -/

/-- `PluginManager.getPlugin(pluginId)`: `this.plugins.get(pluginId)`. -/
def getPlugin {V : Type} (st : ManagerState V) (pid : String) :
    Option (Plugin V) :=
lookupA st.plugins pid

/-- The first id in a dependency list that is not a key of the plugins
map — the one whose check throws in `registerPlugin`'s dependency loop. -/
def firstMissingDep {V : Type} (st : ManagerState V) :
    List String → Option String
| [] => none
| d :: ds =>
  if (lookupA st.plugins d).isSome then firstMissingDep st ds else some d

/-- `PluginManager.registerPlugin(plugin)`. Returns the manager state
after the call together with the error it threw, if any (`none` = the
returned promise resolves). Steps, in source order: duplicate-id check;
required-dependency check (first missing dependency throws;
`optionalDependencies` are never inspected); context creation (no manager
state is touched); `await plugin.initialize(context)` when defined, whose
exception propagates uncaught — reaching this point with a throwing
`initialize` aborts before the `plugins.set` line; insert into the plugins
map; emit `plugin.loaded`. -/
def registerPlugin {V : Type} (st : ManagerState V) (p : Plugin V) :
    ManagerState V × Option PMError :=
let id := p.manifest.id
if (lookupA st.plugins id).isSome then
  (st, some (PMError.duplicatePlugin id))
else
  match firstMissingDep st (p.manifest.dependencies.getD []) with
  | some d => (st, some (PMError.missingDependency id d))
  | none =>
    match p.init with
    | some LifecycleOutcome.throws => (st, some PMError.lifecycleError)
    | _ =>
      ({ st with
          plugins := setA st.plugins id p,
          emitted :=
            st.emitted ++ [MgrEvent.pluginLoaded id p.manifest.version] },
        none)

/-- `PluginManager.unregisterPlugin(pluginId)`: no-op when the id is not
registered; otherwise `await plugin.cleanup()` when defined (a throw
propagates, aborting before any removal), then delete the plugin from the
map, delete its whole storage namespace, and emit `plugin.unloaded`. -/
def unregisterPlugin {V : Type} (st : ManagerState V) (pid : String) :
    ManagerState V × Option PMError :=
match lookupA st.plugins pid with
| none => (st, none)
| some plugin =>
  match plugin.cleanup with
  | some LifecycleOutcome.throws =>
    ({ st with cleanupsRun := st.cleanupsRun ++ [pid] },
      some PMError.lifecycleError)
  | c =>
    ({ st with
        plugins := delA st.plugins pid,
        storage := delA st.storage pid,
        emitted := st.emitted ++ [MgrEvent.pluginUnloaded pid],
        cleanupsRun :=
          if c.isSome then st.cleanupsRun ++ [pid] else st.cleanupsRun },
      none)

/-- Private `PluginManager.getStorage(pluginId, key)`:
`this.storage.get(pluginId)?.get(key)`. -/
def getStorage {V : Type} (st : ManagerState V) (pid key : String) :
    Option (StorageVal V) :=
(lookupA st.storage pid).bind (fun ns => lookupA ns key)

/-- Private `PluginManager.setStorage(pluginId, key, value)`: create the
namespace map if absent, then set the key in it. -/
def setStorage {V : Type} (st : ManagerState V) (pid key : String)
    (v : StorageVal V) : ManagerState V :=
let ns := (lookupA st.storage pid).getD []
{ st with storage := setA st.storage pid (setA ns key v) }

/-- `PluginManager.getPluginAPI(pluginId)`: `undefined` when the plugin is
absent or declares no `api`; otherwise the object delegating each declared
method name to its handler. -/
def getPluginAPI {V : Type} (st : ManagerState V) (pid : String) :
    Option (List (String × Nat)) :=
match lookupA st.plugins pid with
| none => none
| some p =>
  match p.manifest.api with
  | none => none
  | some api => some (api.map (fun e => (e.1, e.2.handler)))

/-- The keys of `a` in order, each carrying `b`'s value when `b` also has
the key (the front part of a spread `{...a, ...b}`). -/
def objMergeFront {V : Type} (b : List (String × V)) :
    List (String × V) → List (String × V)
| [] => []
| (k, v) :: rest => (k, (lookupA b k).getD v) :: objMergeFront b rest

/-- The JS object spread `{...a, ...b}` on string-keyed records: keys of
`a` keep their positions (values overridden by `b` where present), keys of
`b` not in `a` follow in order. -/
def objMerge {V : Type} (a b : List (String × V)) : List (String × V) :=
objMergeFront b a ++ b.filter (fun e => (lookupA a e.1).isNone)

/-- Private `PluginManager.getPluginSettings(pluginId)`: `{}` when the
plugin is absent or has no `settings`; otherwise the manifest defaults
spread-merged with the stored override object under the reserved
`__settings` storage key (`|| {}` when nothing, or no object, is
stored). -/
def getPluginSettings {V : Type} (st : ManagerState V) (pid : String) :
    List (String × V) :=
match lookupA st.plugins pid with
| none => []
| some p =>
  match p.manifest.settings with
  | none => []
  | some s =>
    let stored :=
      match getStorage st pid "__settings" with
      | some (StorageVal.obj o) => o
      | _ => []
    objMerge s.defaults stored

/-- Private `PluginManager.updatePluginSettings(pluginId, settings)`:
store the partial-settings object under the reserved `__settings` key
(replacing any previous override object wholesale) and emit
`settings.changed`. -/
def updatePluginSettings {V : Type} (st : ManagerState V) (pid : String)
    (settings : List (String × V)) : ManagerState V :=
let st₁ := setStorage st pid "__settings" (StorageVal.obj settings)
{ st₁ with
  emitted := st₁.emitted ++ [MgrEvent.settingsChanged pid settings] }

/-- `p` with its manifest's `optionalDependencies` field replaced — used to
state that registration never inspects that field. -/
def withOptionalDeps {V : Type} (p : Plugin V)
    (opt : Option (List String)) : Plugin V :=
{ p with manifest := { p.manifest with optionalDependencies := opt } }

/-! ### Concrete instances used to evaluate the model -/

/-- Environment where handler `0` throws synchronously and every other
handler returns normally. -/
def envSyncThrow : HandlerEnv Nat :=
fun h =>
  HandlerKind.plain (fun _ =>
    if h = 0 then HOutcome.syncThrow else HOutcome.ok)

/-- Environment where handler `0` subscribes handler `1` to channel `c`
from inside its own invocation. -/
def envMidSub : HandlerEnv Nat :=
fun h =>
  if h = 0 then
    HandlerKind.mutator (fun _ => [BusAct.sub "c" 1])
      (fun _ => HOutcome.ok)
  else HandlerKind.plain (fun _ => HOutcome.ok)

/-- Environment of a `once` wrapper with id `0` on channel `c` whose user
handler throws on payload `1` and succeeds on any other payload. -/
def envOnce : HandlerEnv Nat :=
fun _ =>
  HandlerKind.onceWrap "c" 0 (fun p =>
    if p = 1 then HOutcome.syncThrow else HOutcome.ok)

/-- Environment of a `once` wrapper with id `0` on channel `c` whose user
handler always succeeds. -/
def envOnceOk : HandlerEnv Nat :=
fun _ => HandlerKind.onceWrap "c" 0 (fun _ => HOutcome.ok)

/-- All-ok plain handler environment. -/
def envOk : HandlerEnv Nat := fun _ => HandlerKind.plain (fun _ => HOutcome.ok)

/-- A manifest with only the mandatory metadata populated. -/
def manifestBare (id : String) : PluginManifest Nat :=
⟨id, id, "1.0.0", none, none, none, none, none⟩

/-- A plugin with no lifecycle callbacks. -/
def pluginBare (id : String) : Plugin Nat := ⟨manifestBare id, none, none⟩

/-- A plugin whose `initialize` callback throws when awaited. -/
def pluginInitThrows : Plugin Nat :=
⟨manifestBare "p", some LifecycleOutcome.throws, none⟩

/-- A plugin declaring the single required dependency `dep1`. -/
def pluginNeedsDep : Plugin Nat :=
⟨{ manifestBare "p2" with dependencies := some ["dep1"] }, none, none⟩

/-- A `monitoring` plugin exposing an API and settings defaults. -/
def pluginMonitoring : Plugin Nat :=
⟨{ manifestBare "monitoring" with
    settings := some ⟨[("cpuThreshold", 80), ("memThreshold", 90)]⟩,
    api := some [("getStats", ⟨"current stats", 1⟩)] }, none, none⟩

/-- A manager holding the `monitoring` plugin with one stored value in its
storage namespace (and no stored settings override). -/
def mgrWithMonitoring : ManagerState Nat :=
⟨[("monitoring", pluginMonitoring)],
  [("monitoring", [("k1", StorageVal.val 5)])], [], []⟩

/-! ### Association list lemmas -/

theorem lookupA_append {β : Type} (m l : List (String × β)) (k : String) :
    lookupA (m ++ l) k =
      (match lookupA m k with
       | some v => some v
       | none => lookupA l k) := by
  induction m with
  | nil => simp [lookupA]
  | cons e rest ih =>
    by_cases he : e.1 = k
    · simp [lookupA, he]
    · simpa [lookupA, he] using ih

theorem lookupA_not_any {β : Type} :
    ∀ (m : List (String × β)) (k : String),
    m.any (fun e => e.1 = k) = false → lookupA m k = none
| [], _, _ => rfl
| (k₁, v₁) :: rest, k, h => by
  rw [List.any_cons, Bool.or_eq_false_iff] at h
  have he : ¬(k₁ = k) := of_decide_eq_false h.1
  simp only [lookupA]
  rw [if_neg he]
  exact lookupA_not_any rest k h.2

theorem lookupA_map_set_self {β : Type} :
    ∀ (m : List (String × β)) (k : String) (v : β),
    m.any (fun e => e.1 = k) = true →
    lookupA (m.map (fun e => if e.1 = k then (k, v) else e)) k = some v
| [], k, v, h => by simp at h
| (k₁, v₁) :: rest, k, v, h => by
  rw [List.map_cons]
  by_cases he : k₁ = k
  · rw [if_pos (show ((k₁, v₁) : String × β).1 = k from he)]
    simp [lookupA]
  · rw [if_neg (show ¬(((k₁, v₁) : String × β).1 = k) from he)]
    rw [List.any_cons] at h
    have h2 : rest.any (fun e => e.1 = k) = true := by
      rcases Bool.or_eq_true_iff.mp h with h1 | h1
      · exact absurd (of_decide_eq_true h1) he
      · exact h1
    simp only [lookupA]
    rw [if_neg he]
    exact lookupA_map_set_self rest k v h2

theorem lookupA_map_set_ne {β : Type} :
    ∀ (m : List (String × β)) (k k' : String) (v : β), k' ≠ k →
    lookupA (m.map (fun e => if e.1 = k then (k, v) else e)) k'
      = lookupA m k'
| [], _, _, _, _ => rfl
| (k₁, v₁) :: rest, k, k', v, hne => by
  rw [List.map_cons]
  by_cases he : k₁ = k
  · rw [if_pos (show ((k₁, v₁) : String × β).1 = k from he)]
    have h1 : ¬(k = k') := fun h => hne h.symm
    have h2 : ¬(k₁ = k') := by
      rw [he]; exact h1
    simp only [lookupA]
    rw [if_neg h1, if_neg h2]
    exact lookupA_map_set_ne rest k k' v hne
  · rw [if_neg (show ¬(((k₁, v₁) : String × β).1 = k) from he)]
    simp only [lookupA]
    by_cases he' : k₁ = k'
    · rw [if_pos he', if_pos he']
    · rw [if_neg he', if_neg he']
      exact lookupA_map_set_ne rest k k' v hne

theorem lookupA_setA_self {β : Type} (m : List (String × β)) (k : String)
    (v : β) : lookupA (setA m k v) k = some v := by
  unfold setA
  by_cases hany : m.any (fun e => e.1 = k) = true
  · rw [if_pos hany]
    exact lookupA_map_set_self m k v hany
  · have hf : m.any (fun e => e.1 = k) = false := Bool.eq_false_iff.mpr hany
    rw [if_neg hany, lookupA_append, lookupA_not_any m k hf]
    simp [lookupA]

theorem lookupA_setA_ne {β : Type} (m : List (String × β)) (k k' : String)
    (v : β) (hne : k' ≠ k) : lookupA (setA m k v) k' = lookupA m k' := by
  unfold setA
  by_cases hany : m.any (fun e => e.1 = k) = true
  · rw [if_pos hany]
    exact lookupA_map_set_ne m k k' v hne
  · rw [if_neg hany, lookupA_append]
    have hsingle : lookupA [(k, v)] k' = none := by
      simp only [lookupA]
      rw [if_neg (fun h => hne h.symm)]
    rw [hsingle]
    cases h : lookupA m k' <;> simp

theorem lookupA_delA_self {β : Type} :
    ∀ (m : List (String × β)) (k : String), lookupA (delA m k) k = none
| [], _ => rfl
| (k₁, v₁) :: rest, k => by
  by_cases he : k₁ = k
  · have hstep : delA ((k₁, v₁) :: rest) k = delA rest k := by
      simp [delA, he]
    rw [hstep]
    exact lookupA_delA_self rest k
  · have hstep : delA ((k₁, v₁) :: rest) k = (k₁, v₁) :: delA rest k := by
      simp [delA, he]
    rw [hstep]
    simp only [lookupA]
    rw [if_neg he]
    exact lookupA_delA_self rest k

/-! ### Event bus lemmas -/

theorem invoke_snd {α : Type} (env : HandlerEnv α) (st : Listeners)
    (hid : HandlerId) (p : α) :
    (invoke env st hid p).2 = outcomeOf env hid p := by
  unfold invoke outcomeOf
  cases env hid with
  | plain f => rfl
  | onceWrap ev self inner => cases hi : inner p <;> simp [hi]
  | mutator acts f => rfl

theorem runHandlers_log {α : Type} (env : HandlerEnv α) (p : α) :
    ∀ (l : List HandlerId) (st : Listeners),
    (runHandlers env p l st).2.2 = l.map (fun h => (h, p))
| [], _ => rfl
| h :: hs, st => by
  simp only [runHandlers, List.map_cons]
  rw [runHandlers_log env p hs]

theorem runHandlers_rejected {α : Type} (env : HandlerEnv α) (p : α) :
    ∀ (l : List HandlerId) (st : Listeners),
    (runHandlers env p l st).2.1
      = l.any (fun h => isReject (outcomeOf env h p))
| [], _ => rfl
| h :: hs, st => by
  simp only [runHandlers, List.any_cons]
  rw [invoke_snd, runHandlers_rejected env p hs]

theorem emit_log {α : Type} (env : HandlerEnv α) (st : Listeners)
    (ev : Channel) (p : α) :
    (emit env st ev p).log = (snapshot st ev).map (fun h => (h, p)) := by
  unfold emit snapshot
  cases hch : lookupA st ev with
  | none => rfl
  | some l =>
    by_cases he : l.isEmpty = true
    · have hl : l = [] := by simpa using he
      subst hl
      rfl
    · simp only [if_neg he]
      exact runHandlers_log env p l st

theorem emit_rejected {α : Type} (env : HandlerEnv α) (st : Listeners)
    (ev : Channel) (p : α) :
    (emit env st ev p).rejected
      = (snapshot st ev).any (fun h => isReject (outcomeOf env h p)) := by
  unfold emit snapshot
  cases hch : lookupA st ev with
  | none => rfl
  | some l =>
    by_cases he : l.isEmpty = true
    · have hl : l = [] := by simpa using he
      subst hl
      rfl
    · simp only [if_neg he]
      exact runHandlers_rejected env p l st

theorem emit_single {α : Type} (env : HandlerEnv α) (st : Listeners)
    (ev : Channel) (w : HandlerId) (p : α)
    (hch : lookupA st ev = some [w]) :
    emit env st ev p =
      ⟨(invoke env st w p).1, isReject (invoke env st w p).2, [(w, p)]⟩ := by
  unfold emit
  rw [hch]
  simp [runHandlers]

theorem countFst_map {α : Type} (p : α) :
    ∀ (l : List HandlerId) (h : HandlerId),
    countFst h (l.map (fun x => (x, p))) = l.count h
| [], _ => rfl
| x :: xs, h => by
  have ih := countFst_map p xs h
  simp only [countFst] at ih ⊢
  simp only [List.map_cons, List.filter_cons, List.count_cons]
  by_cases hx : x = h
  · simp [hx, ih]
  · simp [hx, ih]

theorem onEv_absent (st : Listeners) (c : Channel) (h : HandlerId)
    (hc : lookupA st c = none) : lookupA (onEv st c h) c = some [h] := by
  unfold onEv
  rw [hc]
  exact lookupA_setA_self st c [h]

theorem onEv_mem (st : Listeners) (c : Channel) (h : HandlerId)
    (l : List HandlerId) (hc : lookupA st c = some l) (hm : h ∈ l) :
    onEv st c h = st := by
  unfold onEv
  simp only [hc]
  rw [if_pos hm]

theorem onEv_notmem (st : Listeners) (c : Channel) (h : HandlerId)
    (l : List HandlerId) (hc : lookupA st c = some l) (hm : h ∉ l) :
    lookupA (onEv st c h) c = some (l ++ [h]) := by
  unfold onEv
  simp only [hc]
  rw [if_neg hm]
  exact lookupA_setA_self st c (l ++ [h])

theorem off_single (st : Listeners) (c : Channel) (w : HandlerId)
    (hch : lookupA st c = some [w]) : off st c w = delA st c := by
  unfold off
  rw [hch]
  simp

/-! ### Object merge and storage lemmas -/

theorem objMergeFront_nil {V : Type} :
    ∀ (a : List (String × V)), objMergeFront [] a = a
| [] => rfl
| (k, v) :: rest => by
  simp [objMergeFront, lookupA, objMergeFront_nil rest]

theorem objMerge_nil {V : Type} (a : List (String × V)) :
    objMerge a [] = a := by
  simp [objMerge, objMergeFront_nil]

theorem lookupA_objMergeFront {V : Type} (b : List (String × V)) :
    ∀ (a : List (String × V)) (k : String),
    lookupA (objMergeFront b a) k
      = (lookupA a k).map (fun va => (lookupA b k).getD va)
| [], _ => rfl
| (k₁, v₁) :: rest, k => by
  simp only [objMergeFront, lookupA]
  by_cases he : k₁ = k
  · subst he
    simp
  · rw [if_neg he, if_neg he]
    exact lookupA_objMergeFront b rest k

theorem lookupA_filter_keys {V : Type} (a : List (String × V)) :
    ∀ (b : List (String × V)) (k : String),
    lookupA (b.filter (fun e => (lookupA a e.1).isNone)) k
      = if (lookupA a k).isSome then none else lookupA b k
| [], k => by
  cases h : (lookupA a k).isSome <;> simp [h, lookupA]
| (k₁, w₁) :: rest, k => by
  rw [List.filter_cons]
  by_cases hk : k₁ = k
  · subst hk
    cases ha : lookupA a k₁ with
    | some v =>
      simp only [ha, Option.isNone_some, Option.isSome_some, if_true]
      have := lookupA_filter_keys a rest k₁
      rw [ha] at this
      simpa using this
    | none =>
      simp only [ha, Option.isNone_none, Option.isSome_none]
      simp [lookupA]
  · cases hn : (lookupA a k₁).isNone with
    | true =>
      simp only [hn, if_true]
      simp only [lookupA]
      rw [if_neg hk, if_neg hk]
      exact lookupA_filter_keys a rest k
    | false =>
      simp only [hn, Bool.false_eq_true, if_false]
      rw [lookupA_filter_keys a rest k]
      cases hs : (lookupA a k).isSome with
      | true => simp
      | false =>
        simp only [Bool.false_eq_true, if_false]
        simp only [lookupA]
        rw [if_neg hk]

theorem lookupA_objMerge {V : Type} (a b : List (String × V)) (k : String) :
    lookupA (objMerge a b) k
      = (match lookupA a k with
         | some va => some ((lookupA b k).getD va)
         | none => lookupA b k) := by
  unfold objMerge
  rw [lookupA_append, lookupA_objMergeFront, lookupA_filter_keys]
  cases h : lookupA a k <;> simp [h]

theorem getStorage_setStorage_self {V : Type} (st : ManagerState V)
    (pid key : String) (v : StorageVal V) :
    getStorage (setStorage st pid key v) pid key = some v := by
  unfold getStorage setStorage
  simp [lookupA_setA_self]

theorem firstMissingDep_spec {V : Type} (st : ManagerState V) :
    ∀ (l : List String) (d : String), firstMissingDep st l = some d →
    d ∈ l ∧ lookupA st.plugins d = none
| [], d, h => by simp [firstMissingDep] at h
| d₁ :: ds, d, h => by
  simp only [firstMissingDep] at h
  by_cases hp : (lookupA st.plugins d₁).isSome = true
  · rw [if_pos hp] at h
    obtain ⟨hm, hn⟩ := firstMissingDep_spec st ds d h
    exact ⟨List.mem_cons_of_mem d₁ hm, hn⟩
  · rw [if_neg hp] at h
    obtain rfl : d₁ = d := by injection h
    refine ⟨List.mem_cons_self d₁ ds, ?_⟩
    cases ho : lookupA st.plugins d₁ with
    | none => rfl
    | some v => exact absurd (by rw [ho]; rfl) hp

/-! ### Claim theorems -/

/-- C1 (counterexample): registering a plugin whose `initialize` callback
throws when awaited does propagate the error, but the plugin is NOT
inserted into the registry map — `getPlugin` of its id yields nothing
afterwards, refuting the claim that the plugin remains registered despite
the failed initialization. -/
theorem register_throwing_not_inserted_cex :
    (registerPlugin (emptyMgr Nat) pluginInitThrows).2
        = some PMError.lifecycleError ∧
    getPlugin (registerPlugin (emptyMgr Nat) pluginInitThrows).1 "p"
        = none := by
  decide

/-- C1 (amended): for every plugin whose `initialize` callback throws or
rejects when awaited during registration (the duplicate and dependency
checks passing), the error is not caught — `register` surfaces it to its
caller — and the plugin is NOT inserted into the registry map, so
afterwards `getPlugin` of its id is undefined: the `plugins.set` line is
only reached after the awaited `initialize` returns normally. -/
theorem register_init_throw_propagates_and_absent {V : Type}
    (st : ManagerState V) (p : Plugin V)
    (hid : lookupA st.plugins p.manifest.id = none)
    (hdeps : firstMissingDep st (p.manifest.dependencies.getD []) = none)
    (hinit : p.init = some LifecycleOutcome.throws) :
    registerPlugin st p = (st, some PMError.lifecycleError) ∧
    getPlugin (registerPlugin st p).1 p.manifest.id = none := by
  have hmain : registerPlugin st p = (st, some PMError.lifecycleError) := by
    simp [registerPlugin, hid, hdeps, hinit]
  refine ⟨hmain, ?_⟩
  rw [hmain]
  exact hid

/-- Witness for C1 (amended) at a concrete throwing plugin and the empty
manager. -/
theorem register_init_throw_propagates_and_absent_witness :
    lookupA (emptyMgr Nat).plugins pluginInitThrows.manifest.id = none ∧
    pluginInitThrows.init = some LifecycleOutcome.throws ∧
    (registerPlugin (emptyMgr Nat) pluginInitThrows
        = (emptyMgr Nat, some PMError.lifecycleError) ∧
     getPlugin (registerPlugin (emptyMgr Nat) pluginInitThrows).1
        pluginInitThrows.manifest.id = none) :=
⟨by decide, by decide,
  register_init_throw_propagates_and_absent (emptyMgr Nat) pluginInitThrows
    (by decide) (by decide) (by decide)⟩

/-- C2 (failing evaluation): the wrapper built by `once` has no
try/finally — it only unsubscribes after the awaited user handler returns
normally. When the user handler's first invocation throws, the wrapper's
promise rejects before the self-`off` line runs: the first emit rejects,
the wrapper stays subscribed (`listenerCount` still 1), and a second emit
invokes the user handler a second time — against the method's documented
"auto-unsubscribes after first call" behaviour. When the first invocation
succeeds, the handler runs exactly once over the two emits. -/
theorem once_failed_first_invocation_runs_again :
    (emit envOnce (once busEmpty "c" 0) "c" 1).rejected = true ∧
    listenerCount (emit envOnce (once busEmpty "c" 0) "c" 1).state "c" = 1 ∧
    countFst 0 ((emit envOnce (once busEmpty "c" 0) "c" 1).log ++
      (emit envOnce (emit envOnce (once busEmpty "c" 0) "c" 1).state
        "c" 2).log) = 2 ∧
    countFst 0 ((emit envOnceOk (once busEmpty "c" 0) "c" 1).log ++
      (emit envOnceOk (emit envOnceOk (once busEmpty "c" 0) "c" 1).state
        "c" 2).log) = 1 := by
  decide

/-- C3: with at least two handlers subscribed to a channel, a handler that
throws synchronously during `emit` does not prevent any other handler of
the snapshot from being invoked with the payload, and — as long as the
handlers' failures are synchronous throws rather than asynchronous
rejections — the promise returned by `emit` resolves. -/
theorem emit_isolates_sync_throw {α : Type} (env : HandlerEnv α)
    (st : Listeners) (c : Channel) (p : α) (l : List HandlerId)
    (h₀ : HandlerId)
    (hch : lookupA st c = some l)
    (hlen : 2 ≤ l.length)
    (hmem : h₀ ∈ l)
    (hthrow : outcomeOf env h₀ p = HOutcome.syncThrow)
    (hnorej : ∀ h ∈ l, outcomeOf env h p ≠ HOutcome.asyncReject) :
    (emit env st c p).log = l.map (fun h => (h, p)) ∧
    (emit env st c p).rejected = false := by
  have hsnap : snapshot st c = l := by simp [snapshot, hch]
  constructor
  · rw [emit_log, hsnap]
  · rw [emit_rejected, hsnap]
    refine List.any_eq_false.mpr ?_
    intro x hx
    have hne := hnorej x hx
    cases ho : outcomeOf env x p with
    | ok => simp [ho, isReject]
    | syncThrow => simp [ho, isReject]
    | asyncReject => exact absurd ho hne

/-- Witness for C3: two plain subscribers on a channel, the first throwing
synchronously; both are invoked and the emit resolves. -/
theorem emit_isolates_sync_throw_witness :
    lookupA [("x", [0, 1])] "x" = some [0, 1] ∧
    outcomeOf envSyncThrow 0 7 = HOutcome.syncThrow ∧
    ((emit envSyncThrow [("x", [0, 1])] "x" 7).log = [(0, 7), (1, 7)] ∧
     (emit envSyncThrow [("x", [0, 1])] "x" 7).rejected = false) :=
⟨by decide, by decide,
  emit_isolates_sync_throw envSyncThrow [("x", [0, 1])] "x" 7 [0, 1] 0
    (by decide) (by decide) (by decide) (by decide) (by decide)⟩

/-- C4: registering a plugin with a required dependency that is not a key
of the registry rejects with a `MissingDependency` error naming the first
missing declared dependency (itself missing), the plugin is absent from
the registry afterwards, and ids listed in `optionalDependencies` are
never checked — replacing them changes nothing. -/
theorem register_missing_dependency_rejects {V : Type}
    (st : ManagerState V) (p : Plugin V) (l : List String) (d : String)
    (opt : Option (List String))
    (hid : lookupA st.plugins p.manifest.id = none)
    (hdeps : p.manifest.dependencies = some l)
    (hfirst : firstMissingDep st l = some d) :
    d ∈ l ∧
    lookupA st.plugins d = none ∧
    registerPlugin st p
        = (st, some (PMError.missingDependency p.manifest.id d)) ∧
    getPlugin (registerPlugin st p).1 p.manifest.id = none ∧
    registerPlugin st (withOptionalDeps p opt) = registerPlugin st p := by
  obtain ⟨hm, hn⟩ := firstMissingDep_spec st l d hfirst
  have hmain : registerPlugin st p
      = (st, some (PMError.missingDependency p.manifest.id d)) := by
    simp [registerPlugin, hid, hdeps, hfirst]
  have hopt : registerPlugin st (withOptionalDeps p opt)
      = (st, some (PMError.missingDependency p.manifest.id d)) := by
    simp [registerPlugin, withOptionalDeps, hid, hdeps, hfirst]
  exact ⟨hm, hn, hmain, by rw [hmain]; exact hid, by rw [hopt, hmain]⟩

/-- Witness for C4: a plugin requiring `dep1` against the empty manager. -/
theorem register_missing_dependency_rejects_witness :
    lookupA (emptyMgr Nat).plugins pluginNeedsDep.manifest.id = none ∧
    pluginNeedsDep.manifest.dependencies = some ["dep1"] ∧
    firstMissingDep (emptyMgr Nat) ["dep1"] = some "dep1" ∧
    ("dep1" ∈ ["dep1"] ∧
     lookupA (emptyMgr Nat).plugins "dep1" = none ∧
     registerPlugin (emptyMgr Nat) pluginNeedsDep
        = (emptyMgr Nat, some (PMError.missingDependency "p2" "dep1")) ∧
     getPlugin (registerPlugin (emptyMgr Nat) pluginNeedsDep).1 "p2"
        = none ∧
     registerPlugin (emptyMgr Nat)
        (withOptionalDeps pluginNeedsDep (some ["opt1"]))
        = registerPlugin (emptyMgr Nat) pluginNeedsDep) :=
⟨by decide, by decide, by decide,
  register_missing_dependency_rejects (emptyMgr Nat) pluginNeedsDep
    ["dep1"] "dep1" (some ["opt1"]) (by decide) (by decide) (by decide)⟩

/-- C5: registering a plugin whose id is already a key of the registry
rejects with `DuplicatePlugin`, the registry's plugin count is unchanged,
and the previously registered plugin under that id is not replaced. -/
theorem register_duplicate_rejects {V : Type} (st : ManagerState V)
    (p q : Plugin V)
    (hdup : lookupA st.plugins p.manifest.id = some q) :
    registerPlugin st p
        = (st, some (PMError.duplicatePlugin p.manifest.id)) ∧
    (registerPlugin st p).1.plugins.length = st.plugins.length ∧
    getPlugin (registerPlugin st p).1 p.manifest.id = some q := by
  have hmain : registerPlugin st p
      = (st, some (PMError.duplicatePlugin p.manifest.id)) := by
    simp [registerPlugin, hdup]
  exact ⟨hmain, by rw [hmain], by rw [hmain]; exact hdup⟩

/-- Witness for C5: re-registering the already-present `monitoring` id. -/
theorem register_duplicate_rejects_witness :
    lookupA mgrWithMonitoring.plugins (pluginBare "monitoring").manifest.id
        = some pluginMonitoring ∧
    (registerPlugin mgrWithMonitoring (pluginBare "monitoring")
        = (mgrWithMonitoring,
            some (PMError.duplicatePlugin "monitoring")) ∧
     (registerPlugin mgrWithMonitoring
          (pluginBare "monitoring")).1.plugins.length
        = mgrWithMonitoring.plugins.length ∧
     getPlugin (registerPlugin mgrWithMonitoring (pluginBare "monitoring")).1
        "monitoring" = some pluginMonitoring) :=
⟨by decide,
  register_duplicate_rejects mgrWithMonitoring (pluginBare "monitoring")
    pluginMonitoring (by decide)⟩

/-- C6: after `unregister(id)` resolves for a registered plugin,
`getPluginAPI(id)` returns nothing and the plugin's storage namespace is
cleared wholesale: `storage.get` of every key in that namespace yields no
value. -/
theorem unregister_clears_api_and_storage {V : Type} (st : ManagerState V)
    (pid : String) (q : Plugin V) (k : String)
    (hreg : lookupA st.plugins pid = some q)
    (hres : (unregisterPlugin st pid).2 = none) :
    getPluginAPI (unregisterPlugin st pid).1 pid = none ∧
    getStorage (unregisterPlugin st pid).1 pid k = none := by
  cases hc : q.cleanup with
  | none =>
    constructor
    · simp [unregisterPlugin, hreg, hc, getPluginAPI, lookupA_delA_self]
    · simp [unregisterPlugin, hreg, hc, getStorage, lookupA_delA_self]
  | some o =>
    cases o with
    | ok =>
      constructor
      · simp [unregisterPlugin, hreg, hc, getPluginAPI, lookupA_delA_self]
      · simp [unregisterPlugin, hreg, hc, getStorage, lookupA_delA_self]
    | throws =>
      exfalso
      simp [unregisterPlugin, hreg, hc] at hres

/-- Witness for C6 at the `monitoring` plugin with a populated storage
namespace. -/
theorem unregister_clears_api_and_storage_witness :
    lookupA mgrWithMonitoring.plugins "monitoring"
        = some pluginMonitoring ∧
    (unregisterPlugin mgrWithMonitoring "monitoring").2 = none ∧
    (getPluginAPI (unregisterPlugin mgrWithMonitoring "monitoring").1
        "monitoring" = none ∧
     getStorage (unregisterPlugin mgrWithMonitoring "monitoring").1
        "monitoring" "k1" = none) :=
⟨by decide, by decide,
  unregister_clears_api_and_storage mgrWithMonitoring "monitoring"
    pluginMonitoring "k1" (by decide) (by decide)⟩

/-- C7: for a registered plugin with manifest settings and no stored
override, `getPluginSettings` returns exactly the manifest defaults; after
`updateSettings` with a flat partial object it returns the defaults
shallow-merged with that stored override — looking up any key yields the
override's value where overridden and the untouched default otherwise. -/
theorem settings_defaults_then_shallow_merge {V : Type}
    (st : ManagerState V) (pid : String) (p : Plugin V)
    (s : PluginSettings V) (ov : List (String × V)) (k : String)
    (hreg : lookupA st.plugins pid = some p)
    (hset : p.manifest.settings = some s)
    (hstored : getStorage st pid "__settings" = none) :
    getPluginSettings st pid = s.defaults ∧
    getPluginSettings (updatePluginSettings st pid ov) pid
        = objMerge s.defaults ov ∧
    lookupA (getPluginSettings (updatePluginSettings st pid ov) pid) k
        = (match lookupA ov k with
           | some v => some v
           | none => lookupA s.defaults k) := by
  have h1 : getPluginSettings st pid = s.defaults := by
    simp [getPluginSettings, hreg, hset, hstored, objMerge_nil]
  have hplug : lookupA (updatePluginSettings st pid ov).plugins pid
      = some p := hreg
  have hst : getStorage (updatePluginSettings st pid ov) pid "__settings"
      = some (StorageVal.obj ov) :=
    getStorage_setStorage_self st pid "__settings" (StorageVal.obj ov)
  have h2 : getPluginSettings (updatePluginSettings st pid ov) pid
      = objMerge s.defaults ov := by
    simp [getPluginSettings, hplug, hset, hst]
  refine ⟨h1, h2, ?_⟩
  rw [h2, lookupA_objMerge]
  cases ha : lookupA s.defaults k <;> cases hb : lookupA ov k <;>
    simp [ha, hb]

/-- Witness for C7: the `monitoring` plugin with defaults
`cpuThreshold = 80`, `memThreshold = 90`, overridden by
`cpuThreshold = 50`; the untouched `memThreshold` key stays at 90. -/
theorem settings_defaults_then_shallow_merge_witness :
    lookupA mgrWithMonitoring.plugins "monitoring"
        = some pluginMonitoring ∧
    pluginMonitoring.manifest.settings
        = some ⟨[("cpuThreshold", 80), ("memThreshold", 90)]⟩ ∧
    getStorage mgrWithMonitoring "monitoring" "__settings" = none ∧
    (getPluginSettings mgrWithMonitoring "monitoring"
        = [("cpuThreshold", 80), ("memThreshold", 90)] ∧
     getPluginSettings (updatePluginSettings mgrWithMonitoring
          "monitoring" [("cpuThreshold", 50)]) "monitoring"
        = [("cpuThreshold", 50), ("memThreshold", 90)] ∧
     lookupA (getPluginSettings (updatePluginSettings mgrWithMonitoring
          "monitoring" [("cpuThreshold", 50)]) "monitoring") "memThreshold"
        = some 90) :=
⟨by decide, by decide, by decide,
  settings_defaults_then_shallow_merge mgrWithMonitoring "monitoring"
    pluginMonitoring ⟨[("cpuThreshold", 80), ("memThreshold", 90)]⟩
    [("cpuThreshold", 50)] "memThreshold"
    (by decide) (by decide) (by decide)⟩

/-- C8: subscribing is idempotent per handler identity: a second `on` with
the same handler reference leaves the bus state — hence the channel's
subscriber count — unchanged, and an emit after the double subscribe
invokes the handler exactly once. -/
theorem subscribe_idempotent_per_handler {α : Type} (st : Listeners)
    (c : Channel) (h : HandlerId) (env : HandlerEnv α) (p : α)
    (hwf : WF st) :
    onEv (onEv st c h) c h = onEv st c h ∧
    listenerCount (onEv (onEv st c h) c h) c
        = listenerCount (onEv st c h) c ∧
    countFst h (emit env (onEv (onEv st c h) c h) c p).log = 1 := by
  obtain ⟨l₂, hl₂, hmem, hcount⟩ :
      ∃ l₂, lookupA (onEv st c h) c = some l₂ ∧ h ∈ l₂ ∧ l₂.count h = 1 := by
    cases hch : lookupA st c with
    | none =>
      refine ⟨[h], onEv_absent st c h hch, ?_, ?_⟩ <;> simp
    | some l =>
      by_cases hm : h ∈ l
      · refine ⟨l, ?_, hm, ?_⟩
        · rw [onEv_mem st c h l hch hm]
          exact hch
        · exact List.count_eq_one_of_mem (hwf c l hch) hm
      · refine ⟨l ++ [h], onEv_notmem st c h l hch hm, by simp, ?_⟩
        rw [List.count_append, List.count_eq_zero_of_not_mem hm]
        simp
  have heq : onEv (onEv st c h) c h = onEv st c h :=
    onEv_mem (onEv st c h) c h l₂ hl₂ hmem
  refine ⟨heq, by rw [heq], ?_⟩
  rw [heq, emit_log]
  have hsnap : snapshot (onEv st c h) c = l₂ := by simp [snapshot, hl₂]
  rw [hsnap, countFst_map]
  exact hcount

/-- Witness for C8: double subscribe of handler 0 on the empty bus, then
one emit. -/
theorem subscribe_idempotent_per_handler_witness :
    WF busEmpty ∧
    (onEv (onEv busEmpty "c" 0) "c" 0 = onEv busEmpty "c" 0 ∧
     listenerCount (onEv (onEv busEmpty "c" 0) "c" 0) "c"
        = listenerCount (onEv busEmpty "c" 0) "c" ∧
     countFst 0 (emit envOk (onEv (onEv busEmpty "c" 0) "c" 0) "c" 7).log
        = 1) :=
have hwf : WF busEmpty := by
  intro c l hcl
  simp [busEmpty, lookupA] at hcl
⟨hwf, subscribe_idempotent_per_handler busEmpty "c" 0 envOk 7 hwf⟩

/-- C9: `unregisterPlugin` on an id that is not registered resolves and is
a complete no-op: the returned state is the argument state itself (plugin
map, storage namespaces, emitted events and cleanup calls all unchanged)
and no error is thrown. -/
theorem unregister_absent_is_noop {V : Type} (st : ManagerState V)
    (pid : String) (habs : lookupA st.plugins pid = none) :
    unregisterPlugin st pid = (st, none) := by
  simp [unregisterPlugin, habs]

/-- Witness for C9 at an id not present in the manager. -/
theorem unregister_absent_is_noop_witness :
    lookupA mgrWithMonitoring.plugins "ghost" = none ∧
    unregisterPlugin mgrWithMonitoring "ghost" = (mgrWithMonitoring, none) :=
⟨by decide, unregister_absent_is_noop mgrWithMonitoring "ghost" (by decide)⟩

/-- C10: `emit` delivers to the snapshot of the channel's subscribers
taken when it is called: the invocation log is exactly that snapshot (so a
snapshot member is invoked even if unsubscribed while the emission is in
progress), and a handler not in the snapshot — for instance one subscribed
from inside another handler during this emission — is not invoked at
all. -/
theorem emit_delivers_to_snapshot {α : Type} (env : HandlerEnv α)
    (st : Listeners) (c : Channel) (p : α) (h' : HandlerId)
    (hnotin : h' ∉ snapshot st c) :
    (emit env st c p).log = (snapshot st c).map (fun h => (h, p)) ∧
    countFst h' (emit env st c p).log = 0 := by
  refine ⟨emit_log env st c p, ?_⟩
  rw [emit_log, countFst_map]
  exact List.count_eq_zero_of_not_mem hnotin

/-- Witness for C10: handler 0 subscribes handler 1 to the same channel
mid-emission; the emission still only invokes the snapshot member 0. -/
theorem emit_delivers_to_snapshot_witness :
    (1 : HandlerId) ∉ snapshot [("c", [0])] "c" ∧
    ((emit envMidSub [("c", [0])] "c" 5).log
        = (snapshot [("c", [0])] "c").map (fun h => (h, 5)) ∧
     countFst 1 (emit envMidSub [("c", [0])] "c" 5).log = 0) :=
⟨by decide,
  emit_delivers_to_snapshot envMidSub [("c", [0])] "c" 5 1 (by decide)⟩

end PageAssist
